import Mathlib

/-!
Verification development for the airfoil geometry core of PlanformCreator2
(src/modules/airfoil.py: class Airfoil, legacy; src/modules/airfoil2.py:
classes Airfoil2 and Airfoil2_Bezier).

Shallow embedding conventions:
* numpy float arrays are embedded as List Rat (exact arithmetic; the spec's
  claims are stated up to floating tolerance, which exact rationals realize).
* A Python coordinate array that is None and one that is empty are both
  embedded as the empty list: no claim below distinguishes them.
* Python exceptions are embedded as Except String; a method that can raise
  returns Except String of its result.
* Code of this repository that is referenced but not present under src/
  (the geometry modules airfoil2_geometry.py, spline_of_airfoil.py and
  airfoil_line_spline.py) is either modelled from the spec (doc comments say
  so) or kept as an explicit parameter of the embedding (interpolation,
  normalization, the exponential function used by the trailing-edge taper).
-/

/-- Accumulator loop of argminIdx: best value and index seen so far, index
of the next element; a strictly smaller element replaces the best, so ties
keep the earliest index as numpy argmin does. -/
def argminFrom (bestVal : ℚ) (bestIdx cur : ℕ) : List ℚ → ℕ
  | [] => bestIdx
  | v :: rest =>
    if v < bestVal then argminFrom v cur (cur + 1) rest
    else argminFrom bestVal bestIdx (cur + 1) rest

/-- First index of the minimal element of a list, as numpy argmin returns it
(airfoil.py line 134 and the leading-edge detection of spec section 4.2:
index of global minimum x).  Returns 0 on the empty list. -/
def argminIdx : List ℚ → ℕ
  | [] => 0
  | v :: rest => argminFrom v 0 1 rest

/-- One surface side of an airfoil: x and y coordinate arrays running from
leading edge to trailing edge (the LineOfAirfoil / SideOfAirfoil data the two
source files build when splitting a polyline). -/
structure Side where
  x : List ℚ
  y : List ℚ
deriving DecidableEq

/-- Tag for the two sides of an airfoil (UPPER / LOWER constants of the
source). -/
inductive SideTag where
  | upper
  | lower
deriving DecidableEq

/-- State of an Airfoil2 instance (airfoil2.py lines 32-85): the fields the
claims touch.  Lazily cached attributes (_iLe, _geo) are not stored: the
embedding recomputes them, which is observationally the same because they are
deterministic functions of x and y.  sourceName and the polar/property
bookkeeping are omitted; no claim mentions them. -/
structure Airfoil2 where
  name : String
  pathFileName : Option String
  x : List ℚ
  y : List ℚ
  mIsModified : Bool
  mIsStrakAirfoil : Bool
deriving DecidableEq

/-- Property isModified (airfoil2.py line 217). -/
def Airfoil2.isModified (a : Airfoil2) : Bool := a.mIsModified

/-- Setter set_isModified (airfoil2.py lines 219-220). -/
def Airfoil2.set_isModified (a : Airfoil2) (aBool : Bool) : Airfoil2 :=
  { a with mIsModified := aBool }

/-- Property isEdited (airfoil2.py lines 208-210): the source returns
self._isModified directly. -/
def Airfoil2.isEdited (a : Airfoil2) : Bool := a.mIsModified

/-- Setter set_isEdited (airfoil2.py lines 212-213): the source delegates to
set_isModified. -/
def Airfoil2.set_isEdited (a : Airfoil2) (aBool : Bool) : Airfoil2 :=
  a.set_isModified aBool

/-- Setter set_isStrakAirfoil (airfoil2.py lines 240-241). -/
def Airfoil2.set_isStrakAirfoil (a : Airfoil2) (aBool : Bool) : Airfoil2 :=
  { a with mIsStrakAirfoil := aBool }

/-- Setter set_xy (airfoil2.py lines 166-172): replaces the coordinates,
drops the cached leading-edge index and geometry (implicit here) and marks
the airfoil modified. -/
def Airfoil2.set_xy (a : Airfoil2) (newX newY : List ℚ) : Airfoil2 :=
  { a with x := newX, y := newY, mIsModified := true }

/-- Property isLoaded (airfoil2.py lines 228-229): coordinates present and
more than 10 points. -/
def Airfoil2.isLoadedB (a : Airfoil2) : Bool := decide (10 < a.x.length)

/-- Leading-edge index iLe (airfoil2.py line 247 delegates to the geometry;
airfoil2_geometry.py is not under src/).  Modelled from the spec (section
4.2: leading-edge detection is the index of global minimum x) and identical
to the in-src Airfoil.le_i (airfoil.py line 134). -/
def Airfoil2.iLe (a : Airfoil2) : ℕ := argminIdx a.x

/-- Normalization check on raw coordinates.  Airfoil2.isNormalized
(airfoil2.py line 234) delegates to geo.isNormalized whose module is not
under src/; modelled from the spec (section 4.2: exact equality on the four
boundary coordinates, LE = (0,0), TE x = 1 with symmetric y) and identical to
the in-src Airfoil.isNormalized (airfoil.py lines 117-129). -/
def isNormalizedXY (x y : List ℚ) : Bool :=
  if x.isEmpty then false
  else
    decide (x.headD 0 = 1) && decide (x.getLastD 0 = 1) &&
    decide (y.headD 0 = -(y.getLastD 0)) &&
    decide (x.getD (argminIdx x) 0 = 0) && decide (y.getD (argminIdx x) 0 = 0)

/-- Property isNormalized of Airfoil2 (see isNormalizedXY). -/
def Airfoil2.isNormalizedB (a : Airfoil2) : Bool := isNormalizedXY a.x a.y

/-- Signature of the missing geometry normalization step.  geo.normalize
(airfoil2_geometry.py, not under src/) reports with True/False whether a
change was made and, on True, exposes the changed coordinates; this is
embedded as an Option result: some (newX, newY) when a change was made, none
otherwise. -/
def NormalizeFn : Type := List ℚ → List ℚ → Option (List ℚ × List ℚ)

/-- Modelled from the spec: the contract of the missing geo.normalize
(airfoil2_geometry.py is not under src/).  Spec section 4.2: normalization
produces LE exactly (0,0) and TE x = 1 with symmetric y; if it cannot
converge it fails silently and the caller detects this via isNormalized
remaining false - hence whenever it does report a change, the changed
coordinates are normalized. -/
def NormalizeSpec (nrm : NormalizeFn) : Prop :=
  ∀ x y nx ny, nrm x y = some (nx, ny) → isNormalizedXY nx ny = true

/-- Method normalize (airfoil2.py lines 679-689): asks the geometry to
normalize and on success replaces the coordinates via set_xy. -/
def Airfoil2.normalize (nrm : NormalizeFn) (a : Airfoil2) : Airfoil2 :=
  match nrm a.x a.y with
  | some (nx, ny) => a.set_xy nx ny
  | none => a

/-- Upper side split off the polyline.  Airfoil2.upper delegates to the
geometry (not under src/); modelled from the spec (section 4.2: the polyline
is split at the leading-edge index, the upper segment reversed so it runs
LE to TE) and identical to the in-src Airfoil._splitUpperLower (airfoil.py
lines 444-455): upper = flip of x[0 : iLe + 1]. -/
def Airfoil2.upperSide (a : Airfoil2) : Side :=
  ⟨(a.x.take (a.iLe + 1)).reverse, (a.y.take (a.iLe + 1)).reverse⟩

/-- Lower side split off the polyline (see upperSide): lower = x[iLe :]. -/
def Airfoil2.lowerSide (a : Airfoil2) : Side :=
  ⟨a.x.drop a.iLe, a.y.drop a.iLe⟩

/-- Clamp of the blending distance (airfoil2.py line 643:
xBlend = min(max(xBlend, 0.0), 1.0)). -/
def clamp01 (q : ℚ) : ℚ := min (max q 0) 1

/-- Taper factor of the trailing-edge gap change at one point (airfoil2.py
lines 650-658).  np.exp is embedded as the parameter expFn; the claims
proved below use it only at the trailing edge where the argument is 0 and
exp 0 = 1 holds for the float exp as well. -/
def tfacAt (expFn : ℚ → ℚ) (xBlendC : ℚ) (n i : ℕ) (xi : ℚ) : ℚ :=
  if xBlendC = 0 then (if i = 0 ∨ i = n - 1 then 1 else 0)
  else expFn (-(min ((1 - xi) * (1 / xBlendC - 1)) 15))

/-- The adjusted y array of with_TEGap (the loop of airfoil2.py lines
649-663): point i of the upper side (i less or equal iLe) is shifted by
+ dgap/2 * x_i * taper, a lower-side point by - dgap/2 * x_i * taper. -/
def teGapY (expFn : ℚ → ℚ) (iLe : ℕ) (dgap xBlendC : ℚ) (x y : List ℚ) :
    List ℚ :=
  (List.range x.length).map (fun i =>
    let xi := x.getD i 0
    let t := tfacAt expFn xBlendC x.length i xi
    if i ≤ iLe then y.getD i 0 + 1/2 * dgap * xi * t
    else y.getD i 0 - 1/2 * dgap * xi * t)

/-- Method with_TEGap (airfoil2.py lines 623-664): if the airfoil is not
normalized an implicit normalization is attempted first (mutating self); if
it is still not normalized the gap change is aborted and the current
coordinates are returned unchanged.  Otherwise the taper loop produces the
new y array; x is returned as an unmodified copy. -/
def Airfoil2.with_TEGap (expFn : ℚ → ℚ) (nrm : NormalizeFn) (a : Airfoil2)
    (newGap xBlend : ℚ) : List ℚ × List ℚ :=
  let a1 := if a.isNormalizedB then a else a.normalize nrm
  if a1.isNormalizedB = false then (a1.x, a1.y)
  else
    let xBlendC := clamp01 xBlend
    let gap := a1.y.headD 0 - a1.y.getLastD 0
    let dgap := newGap - gap
    (a1.x, teGapY expFn a1.iLe dgap xBlendC a1.x a1.y)

/-- Pointwise blend of two y arrays (airfoil2.py lines 724-725):
y = (1 - blendBy) * y1 + blendBy * y2.  numpy adds arrays elementwise; the
claims only use it on arrays of equal length. -/
def blendLists (b : ℚ) (y1 y2 : List ℚ) : List ℚ :=
  List.zipWith (fun p q => (1 - b) * p + b * q) y1 y2

/-- Signature of the missing resampling routine geo.get_y_on
(airfoil2_geometry.py is not under src/): given an airfoil, a side tag and
one x value it returns the interpolated y of that side at x; the source
applies it to a whole x array, embedded below as List.map.  It is kept as an
explicit parameter: the claims proved below hold for every interpolation
routine. -/
def GetYFn : Type := Airfoil2 → SideTag → ℚ → ℚ

/-- Grid selection and blending of do_strak (airfoil2.py lines 707-725): the
airfoil whose blend weight is at least one half supplies the upper and lower
x grids and its raw y values; the other airfoil is resampled onto those
grids; then both sides are blended pointwise.  Returns (upper, lower). -/
def strakSides (getY : GetYFn) (a1 a2 : Airfoil2) (blendBy : ℚ) :
    Side × Side :=
  if blendBy ≤ 1/2 then
    let xu := a1.upperSide.x
    let xl := a1.lowerSide.x
    let yu1 := a1.upperSide.y
    let yl1 := a1.lowerSide.y
    let yu2 := xu.map (getY a2 SideTag.upper)
    let yl2 := xl.map (getY a2 SideTag.lower)
    (⟨xu, blendLists blendBy yu1 yu2⟩, ⟨xl, blendLists blendBy yl1 yl2⟩)
  else
    let xu := a2.upperSide.x
    let xl := a2.lowerSide.x
    let yu1 := xu.map (getY a1 SideTag.upper)
    let yl1 := xl.map (getY a1 SideTag.lower)
    let yu2 := a2.upperSide.y
    let yl2 := a2.lowerSide.y
    (⟨xu, blendLists blendBy yu1 yu2⟩, ⟨xl, blendLists blendBy yl1 yl2⟩)

/-- Normalize-if-needed step of do_strak (airfoil2.py lines 702-703):
if not airfoil.isNormalized: airfoil.normalize(). -/
def normalizeIfNeeded (nrm : NormalizeFn) (a : Airfoil2) : Airfoil2 :=
  if a.isNormalizedB then a else a.normalize nrm

/-- Reassembly and state update of do_strak (airfoil2.py lines 727-733):
the blended polyline is the reversed upper side concatenated with the lower
side minus its duplicated leading-edge point; set_xy stores it (marking self
modified) and the strak flag is set.  The sourceName bookkeeping is omitted
(no claim mentions it). -/
def Airfoil2.strakCore (getY : GetYFn) (self a1 a2 : Airfoil2) (blendBy : ℚ) :
    Airfoil2 :=
  let s := strakSides getY a1 a2 blendBy
  ((self.set_xy (s.1.x.reverse ++ s.2.x.tail)
      (s.1.y.reverse ++ s.2.y.tail)).set_isStrakAirfoil true)

/-- Message raised by do_strak for a source airfoil that is not loaded
(airfoil2.py lines 697-700). -/
def strakNotLoadedMsg (n : String) : String :=
  "Airfoil '" ++ n ++ "' isn't loaded. Cannot strak."

/-- Method do_strak (airfoil2.py lines 692-733): raises when a source is not
loaded, normalizes an unnormalized source in place, then blends.  The result
triple is (self after blending, airfoil1 after the call, airfoil2 after the
call): the last two record the in-place mutation of the sources. -/
def Airfoil2.do_strak (getY : GetYFn) (nrm : NormalizeFn)
    (self a1 a2 : Airfoil2) (blendBy : ℚ) :
    Except String (Airfoil2 × Airfoil2 × Airfoil2) :=
  if a1.isLoadedB = false then Except.error (strakNotLoadedMsg a1.name)
  else if a2.isLoadedB = false then Except.error (strakNotLoadedMsg a2.name)
  else
    let a1n := normalizeIfNeeded nrm a1
    let a2n := normalizeIfNeeded nrm a2
    Except.ok (Airfoil2.strakCore getY self a1n a2n blendBy, a1n, a2n)

/-- One step of the duplicate filter of Airfoil2._loadLines (airfoil2.py
lines 470-489).  A data line is embedded as Option (Rat x Rat): some pair
when the line splits into two floats, none when it does not parse (such a
line is ignored and, as in the source, does not update the previous-value
pair).  A parsed pair equal to the previous parsed pair is skipped with a
warning; the previous-value pair is updated on every parsed line. -/
def loadLinesAux : ℚ × ℚ → List (Option (ℚ × ℚ)) → List (ℚ × ℚ)
  | _, [] => []
  | prev, none :: rest => loadLinesAux prev rest
  | prev, some p :: rest =>
    if p = prev then loadLinesAux p rest else p :: loadLinesAux p rest

/-- Coordinate pairs collected by Airfoil2._loadLines from the data lines
(the file lines after the name header line); the previous-value pair starts
at the sentinel (-9999.9, -9999.9) of airfoil2.py lines 472-473. -/
def loadCoords (dataLines : List (Option (ℚ × ℚ))) : List (ℚ × ℚ) :=
  loadLinesAux (-99999/10, -99999/10) dataLines

/-- Method _loadLines of Airfoil2 (airfoil2.py lines 466-493): stores the
name from the header line and the de-duplicated coordinates. -/
def Airfoil2.loadLines (a : Airfoil2) (nameLine : String)
    (dataLines : List (Option (ℚ × ℚ))) : Airfoil2 :=
  { a with name := nameLine,
           x := (loadCoords dataLines).map Prod.fst,
           y := (loadCoords dataLines).map Prod.snd }

/-- State of a legacy Airfoil instance (airfoil.py lines 24-58): the fields
the claims touch.  The lazy _upper/_lower/_camber/_thickness caches are
recomputed by the embedding. -/
structure Airfoil where
  name : String
  pathFileName : Option String
  x : List ℚ
  y : List ℚ
deriving DecidableEq

/-- Property isExisting (airfoil.py lines 109-111). -/
def Airfoil.isExisting (a : Airfoil) : Bool := a.pathFileName.isSome

/-- Property isLoaded (airfoil.py lines 113-115). -/
def Airfoil.isLoadedB (a : Airfoil) : Bool := decide (10 < a.x.length)

/-- Property le_i (airfoil.py lines 131-134): index of the leading edge. -/
def Airfoil.le_i (a : Airfoil) : ℕ := argminIdx a.x

/-- Upper side of the legacy split (airfoil.py line 453). -/
def Airfoil.upperOf (a : Airfoil) : Side :=
  ⟨(a.x.take (a.le_i + 1)).reverse, (a.y.take (a.le_i + 1)).reverse⟩

/-- Lower side of the legacy split (airfoil.py line 455). -/
def Airfoil.lowerOf (a : Airfoil) : Side :=
  ⟨a.x.drop a.le_i, a.y.drop a.le_i⟩

/-- Method _splitUpperLower (airfoil.py lines 444-455): raises when the
airfoil is not loaded, otherwise computes the two sides. -/
def Airfoil.splitUpperLower (a : Airfoil) : Except String (Side × Side) :=
  if a.isLoadedB = false then
    Except.error ("Airfoil '" ++ a.name ++ "' isn't loaded. Cannot split.")
  else Except.ok (a.upperOf, a.lowerOf)

/-- Property upper (airfoil.py lines 208-216): when loaded it splits and
returns the upper side; when NOT loaded it returns None - it does not raise.
The Python return value None is embedded as Except.ok none. -/
def Airfoil.upper (a : Airfoil) : Except String (Option Side) :=
  if a.isLoadedB then (a.splitUpperLower).map (fun s => some s.1)
  else Except.ok none

/-- Property lower (airfoil.py lines 218-226): as upper, returns None when
not loaded. -/
def Airfoil.lower (a : Airfoil) : Except String (Option Side) :=
  if a.isLoadedB then (a.splitUpperLower).map (fun s => some s.2)
  else Except.ok none

/-- Property camber (airfoil.py lines 228-237): when loaded, the mean of
upper y and the lower y interpolated on the upper x grid; when not loaded it
raises ValueError.  The interpolation y_interpol lives in
airfoil_line_spline.py which is not under src/ and is kept as the parameter
interp (pointwise evaluation of a side at one x). -/
def Airfoil.camber (interp : Side → ℚ → ℚ) (a : Airfoil) :
    Except String Side :=
  if a.isLoadedB then
    Except.ok ⟨a.upperOf.x,
      List.zipWith (fun yu yl => (yu + yl) / 2) a.upperOf.y
        (a.upperOf.x.map (interp a.lowerOf))⟩
  else Except.error ("Airfoil '" ++ a.name ++ "' not loaded")

/-- Property thickness (airfoil.py lines 239-248): as camber with the
difference of upper and interpolated lower y; raises when not loaded. -/
def Airfoil.thickness (interp : Side → ℚ → ℚ) (a : Airfoil) :
    Except String Side :=
  if a.isLoadedB then
    Except.ok ⟨a.upperOf.x,
      List.zipWith (fun yu yl => yu - yl) a.upperOf.y
        (a.upperOf.x.map (interp a.lowerOf))⟩
  else Except.error ("Airfoil '" ++ a.name ++ "' not loaded")

/-- Constructor of the legacy Airfoil with a pathFileName (airfoil.py lines
24-58).  Path resolution (isabs, join with the working directory) and the
file-system probe are abstracted into the boolean fileExists (the outcome of
os.path.isfile on the resolved path) and stemFn (basename plus splitext).
When the file does not exist the error is logged (ErrorMsg, not an
exception), the name becomes the placeholder and pathFileName stays None. -/
def Airfoil.initFromPath (stemFn : String → String) (fileExists : Bool)
    (pathFileName : String) (name : Option String) : Airfoil :=
  let base : Airfoil :=
    { name := name.getD "", pathFileName := none, x := [], y := [] }
  if fileExists then
    { base with pathFileName := some pathFileName,
                name := stemFn pathFileName }
  else
    { base with name := "-- ? --" }

/-- Constructor of Airfoil2 with a pathFileName (airfoil2.py lines 32-85).
Unlike the legacy class, when the file does not exist it logs, sets the name
to the error placeholder and then RAISES ValueError; the raise is embedded
as Except.error carrying the message of line 80. -/
def Airfoil2.initFromPath (stemFn : String → String) (fileExists : Bool)
    (pathFileName : String) (name : Option String) (x y : List ℚ) :
    Except String Airfoil2 :=
  let base : Airfoil2 :=
    { name := name.getD "", pathFileName := none, x := x, y := y,
      mIsModified := false, mIsStrakAirfoil := false }
  if fileExists then
    Except.ok { base with pathFileName := some pathFileName,
                          name := stemFn pathFileName }
  else
    Except.error ("Cannot create airfoil on '" ++ pathFileName ++ "'")

/-- Control polygon of one Bezier side of Airfoil2_Bezier (the
SideOfAirfoil_Bezier data of spline_of_airfoil.py, not under src/; only its
identity matters for the claims below). -/
structure BezierSide where
  px : List ℚ
  py : List ℚ
deriving DecidableEq

/-- State of an Airfoil2_Bezier instance (airfoil2.py lines 771-794): the
inherited Airfoil2 fields plus the two Bezier sides and the lazy thickness
and camber caches (none = not yet computed). -/
structure Airfoil2_Bezier where
  base : Airfoil2
  mUpper : Option BezierSide
  mLower : Option BezierSide
  mThickness : Option Side
  mCamber : Option Side
deriving DecidableEq

/-- Bezier upper side with the default control points of airfoil2.py lines
808-812. -/
def Airfoil2_Bezier.upper (a : Airfoil2_Bezier) : BezierSide :=
  a.mUpper.getD ⟨[0, 0, 33/100, 1], [0, 6/100, 12/100, 0]⟩

/-- Bezier lower side with the default control points of airfoil2.py lines
819-823. -/
def Airfoil2_Bezier.lower (a : Airfoil2_Bezier) : BezierSide :=
  a.mLower.getD ⟨[0, 0, 25/100, 1], [0, -4/100, -7/100, 0]⟩

/-- Setter set_maxThickness of Airfoil2_Bezier (airfoil2.py lines 882-884):
the body is pass - not supported on Bezier airfoils, no raise, no state
change. -/
def Airfoil2_Bezier.set_maxThickness (a : Airfoil2_Bezier) (newVal : ℚ) :
    Airfoil2_Bezier :=
  let _ := newVal
  a

/-- Setter set_maxThicknessX of Airfoil2_Bezier (airfoil2.py lines 891-893):
pass. -/
def Airfoil2_Bezier.set_maxThicknessX (a : Airfoil2_Bezier) (newVal : ℚ) :
    Airfoil2_Bezier :=
  let _ := newVal
  a

/-- Setter set_maxCamber of Airfoil2_Bezier (airfoil2.py lines 901-904):
pass. -/
def Airfoil2_Bezier.set_maxCamber (a : Airfoil2_Bezier) (newVal : ℚ) :
    Airfoil2_Bezier :=
  let _ := newVal
  a

/-- Setter set_maxCamberX of Airfoil2_Bezier (airfoil2.py lines 910-912):
pass. -/
def Airfoil2_Bezier.set_maxCamberX (a : Airfoil2_Bezier) (newVal : ℚ) :
    Airfoil2_Bezier :=
  let _ := newVal
  a

/-- Property isNormalized of the legacy Airfoil (airfoil.py lines 117-129):
the same four-boundary-coordinate check as isNormalizedXY, written in src/
for this class. -/
def Airfoil.isNormalizedB (a : Airfoil) : Bool := isNormalizedXY a.x a.y

/-- Scalar multiplication of a numpy array (blendBy * array in airfoil.py
lines 490-495). -/
def npScale (c : ℚ) (l : List ℚ) : List ℚ := l.map (fun v => c * v)

/-- Message of the numpy broadcast error (the shapes in the real message are
elided). -/
def broadcastMsg : String :=
  "ValueError: operands could not be broadcast together"

/-- Elementwise addition of two numpy arrays: defined when the lengths agree
or one operand has length 1 (numpy broadcasting of 1-d arrays); any other
length combination raises ValueError. -/
def npAdd (l1 l2 : List ℚ) : Except String (List ℚ) :=
  if l1.length = l2.length then
    Except.ok (List.zipWith (fun p q => p + q) l1 l2)
  else if l1.length = 1 then Except.ok (l2.map (fun v => l1.headD 0 + v))
  else if l2.length = 1 then Except.ok (l1.map (fun v => v + l2.headD 0))
  else Except.error broadcastMsg

/-- Message of the Python AttributeError raised when the upper or lower
property of an unloaded legacy airfoil (which is None, airfoil.py lines
215-216 and 225-226) is dereferenced inside do_strak (the attribute name in
the real message varies with the access). -/
def attributeErrorMsg : String :=
  "AttributeError: NoneType object has no attribute"

/-- Side computation of the legacy Airfoil_Straked.do_strak (airfoil.py
lines 482-495), translated with numpy semantics: the grid comes from
airfoil1 when blendBy is at most 1/2, else from airfoil2; but - unlike
Airfoil2.do_strak - y_upper and y_lower always add (1-blendBy) times
airfoil1's RAW side y array to blendBy times airfoil2 interpolated on the
chosen grid.  airfoil1 is never resampled, and with differing array lengths
the numpy addition raises the broadcast ValueError.  The interpolation
y_interpol (airfoil_line_spline.py, not under src/) is the parameter
interp. -/
def strakSidesLegacy (interp : Side → ℚ → ℚ) (a1 a2 : Airfoil) (b : ℚ) :
    Except String (Side × Side) :=
  let xu := if b ≤ 1/2 then a1.upperOf.x else a2.upperOf.x
  let xl := if b ≤ 1/2 then a1.lowerOf.x else a2.lowerOf.x
  match npAdd (npScale (1 - b) a1.upperOf.y)
      (npScale b (xu.map (interp a2.upperOf))) with
  | Except.error e => Except.error e
  | Except.ok yu =>
    match npAdd (npScale (1 - b) a1.lowerOf.y)
        (npScale b (xl.map (interp a2.lowerOf))) with
    | Except.error e => Except.error e
    | Except.ok yl => Except.ok (⟨xu, yu⟩, ⟨xl, yl⟩)

/-- Method do_strak of the legacy Airfoil_Straked (airfoil.py lines
478-503): it performs NO loaded or normalized checks and never mutates its
sources.  When a source is not loaded its upper/lower property is None and
the attribute access raises AttributeError; otherwise the sides are blended
and only self receives the new polyline.  The result triple mirrors the
Airfoil2 embedding: (self after blending, airfoil1, airfoil2) - the last two
are returned exactly as passed in.  The sourceName bookkeeping of line 503
is omitted. -/
def Airfoil.do_strak (interp : Side → ℚ → ℚ) (self a1 a2 : Airfoil)
    (blendBy : ℚ) : Except String (Airfoil × Airfoil × Airfoil) :=
  if a1.isLoadedB && a2.isLoadedB then
    match strakSidesLegacy interp a1 a2 blendBy with
    | Except.error e => Except.error e
    | Except.ok s =>
      Except.ok ({ self with x := s.1.x.reverse ++ s.2.x.tail,
                             y := s.1.y.reverse ++ s.2.y.tail }, a1, a2)
  else Except.error attributeErrorMsg

/-- Method _loadLines of the legacy Airfoil (airfoil.py lines 312-328):
every parsed data line is appended - unlike the Airfoil2 loader there is NO
duplicate filter (and no sentinel).  Lines are pre-parsed into Option pairs
as for the Airfoil2 loader. -/
def loadLinesLegacy : List (Option (ℚ × ℚ)) → List (ℚ × ℚ)
  | [] => []
  | none :: rest => loadLinesLegacy rest
  | some p :: rest => p :: loadLinesLegacy rest

/-- Modelled from the spec: the y_interpol resampling of LineOfAirfoil
(airfoil_line_spline.py is not under src/; spec section 4.5 says the other
side is resampled (interpolated) onto the grid, section 8 that resampling a
side on its own grid reproduces it within floating tolerance).  Modelled as
piecewise-linear interpolation over the side's (x, y) nodes - in particular
it reproduces the side's own node values exactly, the only property the
concrete counterexamples rely on.  Left of the first node it clamps to the
first y, right of the last node to the last y. -/
def linInterpAux (q : ℚ) : (ℚ × ℚ) → List (ℚ × ℚ) → ℚ
  | p, [] => p.2
  | p, p2 :: rest =>
    if q ≤ p.1 then p.2
    else if q ≤ p2.1 then p.2 + (q - p.1) * (p2.2 - p.2) / (p2.1 - p.1)
    else linInterpAux q p2 rest

/-- Pointwise piecewise-linear resampling of a Side (see linInterpAux). -/
def linInterp (s : Side) (q : ℚ) : ℚ :=
  match s.x.zip s.y with
  | [] => 0
  | p :: rest => linInterpAux q p rest

/-- Empty legacy airfoil used as the strak receiver in counterexamples. -/
def legSelf : Airfoil :=
  { name := "strak", pathFileName := none, x := [], y := [] }

/-- Concrete loaded, normalized legacy airfoil with 11 points (upper side
of 6 points). -/
def LC1 : Airfoil :=
  { name := "L1", pathFileName := none,
    x := [1, 4, 3, 3, 2, 0, 2, 3, 3, 4, 1],
    y := [1, 2, 3, 4, 2, 0, -2, -4, -3, -2, -1] }

/-- Concrete loaded, normalized legacy airfoil with 13 points (upper side
of 7 points, differing from LC1). -/
def LC2 : Airfoil :=
  { name := "L2", pathFileName := none,
    x := [1, 6, 5, 4, 3, 2, 0, 2, 3, 4, 5, 6, 1],
    y := [1, 2, 3, 4, 5, 6, 0, -6, -5, -4, -3, -2, -1] }

/-- Concrete loaded legacy airfoil that is NOT normalized (the trailing-edge
y values are not symmetric). -/
def LU1 : Airfoil :=
  { name := "LU", pathFileName := none,
    x := [1, 4, 3, 3, 2, 0, 2, 3, 3, 4, 1],
    y := [1, 2, 3, 4, 2, 0, -2, -4, -3, -2, -5] }

/-- Concrete loaded, normalized legacy airfoil with a strictly increasing
upper grid 0, 1/5, 2/5, 3/5, 4/5, 1. -/
def LN1 : Airfoil :=
  { name := "N1", pathFileName := none,
    x := [1, 4/5, 3/5, 2/5, 1/5, 0, 1/5, 2/5, 3/5, 4/5, 1],
    y := [0, 1/5, 2/5, 2/5, 1/5, 0, -1/5, -2/5, -2/5, -1/5, 0] }

/-- Concrete loaded, normalized legacy airfoil with a strictly increasing
upper grid 0, 1/8, 1/4, 1/2, 3/4, 1 (different from LN1). -/
def LN2 : Airfoil :=
  { name := "N2", pathFileName := none,
    x := [1, 3/4, 1/2, 1/4, 1/8, 0, 1/8, 1/4, 1/2, 3/4, 1],
    y := [0, 1/4, 1/2, 1/4, 1/8, 0, -1/8, -1/4, -1/2, -1/4, 0] }

/-- Concrete normalized 11-point test airfoil (leading edge at index 5). -/
def wFoil1 : Airfoil2 :=
  { name := "Foil1", pathFileName := none,
    x := [1, 4, 3, 3, 2, 0, 2, 3, 3, 4, 1],
    y := [1, 2, 3, 4, 2, 0, -2, -4, -3, -2, -1],
    mIsModified := false, mIsStrakAirfoil := false }

/-- Second concrete normalized 11-point test airfoil. -/
def wFoil2 : Airfoil2 :=
  { name := "Foil2", pathFileName := none,
    x := [1, 5, 4, 3, 2, 0, 2, 3, 4, 5, 1],
    y := [2, 3, 5, 6, 3, 0, -3, -6, -5, -3, -2],
    mIsModified := false, mIsStrakAirfoil := false }

/-- Empty target airfoil used as the strak receiver in witnesses. -/
def wSelf : Airfoil2 :=
  { name := "strak", pathFileName := none, x := [], y := [],
    mIsModified := false, mIsStrakAirfoil := false }

/-! Helper lemmas shared by the claim theorems. -/

theorem getD_zero_headD (l : List ℚ) (d : ℚ) : l.getD 0 d = l.headD d := by
  cases l <;> rfl

theorem getD_last_getLastD (l : List ℚ) (d : ℚ) (h : l ≠ []) :
    l.getD (l.length - 1) d = l.getLastD d := by
  induction l with
  | nil => exact absurd rfl h
  | cons a t ih =>
    cases t with
    | nil => rfl
    | cons b m =>
      have h2 : (b :: m : List ℚ) ≠ [] := by simp
      have : (a :: b :: m : List ℚ).length - 1 = (b :: m : List ℚ).length := by
        simp
      rw [this]
      have : ((a :: b :: m : List ℚ)).getD (b :: m : List ℚ).length d
          = (b :: m).getD ((b :: m : List ℚ).length - 1) d := by
        simp [List.getD_cons_succ]
      rw [this, ih h2]
      simp [List.getLastD]

theorem argminFrom_lt (rest : List ℚ) : ∀ (bv : ℚ) (bi cur : ℕ),
    bi < cur → argminFrom bv bi cur rest < cur + rest.length := by
  induction rest with
  | nil => intro bv bi cur h; simpa [argminFrom] using h
  | cons v r ih =>
    intro bv bi cur h
    simp only [argminFrom, List.length_cons]
    split
    · have := ih v cur (cur + 1) (Nat.lt_succ_self cur)
      omega
    · have := ih bv bi (cur + 1) (Nat.lt_succ_of_lt h)
      omega

theorem argminIdx_lt_length (l : List ℚ) (h : l ≠ []) :
    argminIdx l < l.length := by
  cases l with
  | nil => exact absurd rfl h
  | cons v rest =>
    have hlt := argminFrom_lt rest v 0 1 Nat.one_pos
    simp only [argminIdx, List.length_cons]
    omega

theorem getD_range_map (f : ℕ → ℚ) (n i : ℕ) (d : ℚ) (h : i < n) :
    ((List.range n).map f).getD i d = f i := by
  have hlen : i < ((List.range n).map f).length := by simpa using h
  rw [List.getD_eq_getElem _ _ hlen]
  simp

theorem blendLists_zero (y1 y2 : List ℚ) (h : y1.length ≤ y2.length) :
    blendLists 0 y1 y2 = y1 := by
  induction y1 generalizing y2 with
  | nil => rfl
  | cons a t ih =>
    cases y2 with
    | nil => simp at h
    | cons b m =>
      simp only [blendLists, List.zipWith_cons_cons]
      refine List.cons_eq_cons.mpr ⟨by ring, ?_⟩
      exact ih m (by simpa using h)

theorem blendLists_one (y1 y2 : List ℚ) (h : y2.length ≤ y1.length) :
    blendLists 1 y1 y2 = y2 := by
  induction y2 generalizing y1 with
  | nil => simp [blendLists]
  | cons b m ih =>
    cases y1 with
    | nil => simp at h
    | cons a t =>
      simp only [blendLists, List.zipWith_cons_cons]
      refine List.cons_eq_cons.mpr ⟨by ring, ?_⟩
      exact ih t (by simpa using h)

theorem getD_zipWith (f : ℚ → ℚ → ℚ) (l1 l2 : List ℚ) (i : ℕ) (d : ℚ)
    (h1 : i < l1.length) (h2 : i < l2.length) :
    (List.zipWith f l1 l2).getD i d = f (l1.getD i d) (l2.getD i d) := by
  have hz : i < (List.zipWith f l1 l2).length := by
    simp [List.length_zipWith]; omega
  rw [List.getD_eq_getElem _ _ hz, List.getD_eq_getElem _ _ h1,
    List.getD_eq_getElem _ _ h2]
  exact List.getElem_zipWith

theorem getD_map_fn (g : ℚ → ℚ) (l : List ℚ) (i : ℕ) (d : ℚ)
    (h : i < l.length) :
    (l.map g).getD i d = g (l.getD i d) := by
  have hm : i < (l.map g).length := by simpa using h
  rw [List.getD_eq_getElem _ _ hm, List.getD_eq_getElem _ _ h]
  simp

theorem loadLinesAux_head_ne (ls : List (Option (ℚ × ℚ))) (prev q : ℚ × ℚ)
    (h : (loadLinesAux prev ls).head? = some q) : q ≠ prev := by
  induction ls generalizing prev with
  | nil => simp [loadLinesAux] at h
  | cons o rest ih =>
    cases o with
    | none => exact ih prev h
    | some p =>
      by_cases hp : p = prev
      · subst hp
        simp only [loadLinesAux, if_pos rfl] at h
        exact ih p h
      · simp only [loadLinesAux, if_neg hp, List.head?_cons] at h
        cases h
        exact hp

theorem loadLinesAux_chain' (ls : List (Option (ℚ × ℚ))) (prev : ℚ × ℚ) :
    List.Chain' (fun a b => a ≠ b) (loadLinesAux prev ls) := by
  induction ls generalizing prev with
  | nil => simp [loadLinesAux]
  | cons o rest ih =>
    cases o with
    | none => exact ih prev
    | some p =>
      by_cases hp : p = prev
      · simp only [loadLinesAux, if_pos hp]
        exact ih p
      · simp only [loadLinesAux, if_neg hp]
        refine List.chain'_cons'.mpr ⟨?_, ih p⟩
        intro b hb
        exact fun hpb => (loadLinesAux_head_ne rest p b hb) hpb.symm

/-! Claim theorems. -/

/-- C10: in every state of an Airfoil2 instance the isEdited property equals
the isModified property, and set_isEdited has exactly the same effect on the
state as set_isModified: the two flags can never diverge. -/
theorem spec_c10_isEdited_equals_isModified (a : Airfoil2) (b : Bool) :
    Airfoil2.isEdited a = Airfoil2.isModified a ∧
    Airfoil2.set_isEdited a b = Airfoil2.set_isModified a b :=
  ⟨rfl, rfl⟩

/-- C10 witness at a concrete state. -/
theorem spec_c10_isEdited_equals_isModified_witness :
    Airfoil2.isEdited
        { name := "w", pathFileName := none, x := [], y := [],
          mIsModified := true, mIsStrakAirfoil := false }
      = Airfoil2.isModified
        { name := "w", pathFileName := none, x := [], y := [],
          mIsModified := true, mIsStrakAirfoil := false } :=
  (spec_c10_isEdited_equals_isModified
    { name := "w", pathFileName := none, x := [], y := [],
      mIsModified := true, mIsStrakAirfoil := false } true).1

/-- C9: on a Bezier-based airfoil the setters set_maxThickness,
set_maxThicknessX, set_maxCamber and set_maxCamberX never raise (they are
total functions into the state type) and leave the whole state unchanged -
in particular the upper and lower Bezier sides, the coordinates stored in
the base state, and the isModified flag keep their previous values. -/
theorem spec_c9_bezier_setters_noop (a : Airfoil2_Bezier) (v : ℚ) :
    Airfoil2_Bezier.set_maxThickness a v = a ∧
    Airfoil2_Bezier.set_maxThicknessX a v = a ∧
    Airfoil2_Bezier.set_maxCamber a v = a ∧
    Airfoil2_Bezier.set_maxCamberX a v = a ∧
    (Airfoil2_Bezier.set_maxThickness a v).upper = a.upper ∧
    (Airfoil2_Bezier.set_maxThickness a v).lower = a.lower ∧
    (Airfoil2_Bezier.set_maxThickness a v).base.isModified
      = a.base.isModified :=
  ⟨rfl, rfl, rfl, rfl, rfl, rfl, rfl⟩

/-- C7 counterexample: the claim says constructing an airfoil on a
non-existent file does not raise, but the Airfoil2 constructor (airfoil2.py
lines 77-80) raises ValueError after logging; at this concrete input the
construction yields the error. -/
theorem spec_c7_counterexample :
    Airfoil2.initFromPath (fun s => s) false "missing.dat" none [] []
      = Except.error "Cannot create airfoil on 'missing.dat'" := by
  rfl

/-- C7 amended: for the legacy Airfoil class, construction on a non-existent
file indeed does not raise - the constructor is total, the error is only
logged, the name becomes the placeholder and pathFileName stays unset
(isExisting false); the Airfoil2 class however raises ValueError (embedded
as Except.error) after logging. -/
theorem spec_c7_missing_file_degraded (stemFn : String → String)
    (p : String) (nm : Option String) (x y : List ℚ) :
    (Airfoil.initFromPath stemFn false p nm).pathFileName = none ∧
    (Airfoil.initFromPath stemFn false p nm).name = "-- ? --" ∧
    (Airfoil.initFromPath stemFn false p nm).isExisting = false ∧
    Airfoil2.initFromPath stemFn false p nm x y
      = Except.error ("Cannot create airfoil on '" ++ p ++ "'") :=
  ⟨rfl, rfl, rfl, rfl⟩

/-- C6 counterexample: the claim says accessing upper on a not-loaded
airfoil raises; at this concrete not-loaded airfoil (5 points) the upper
property returns the value None (airfoil.py lines 215-216) instead of
raising. -/
theorem spec_c6_counterexample :
    Airfoil.upper
        { name := "TestFoil", pathFileName := none,
          x := [1, 1/2, 0, 1/2, 1], y := [0, 1/20, 0, -1/20, 0] }
      = Except.ok none := by
  rfl

/-- C6 amended: on a not-loaded airfoil (no coordinates or at most 10
points) camber, thickness and the split itself raise ValueError, but the
upper and lower properties return the value None without raising. -/
theorem spec_c6_not_loaded_access (interp : Side → ℚ → ℚ) (a : Airfoil)
    (h : a.isLoadedB = false) :
    Airfoil.upper a = Except.ok none ∧
    Airfoil.lower a = Except.ok none ∧
    Airfoil.camber interp a
      = Except.error ("Airfoil '" ++ a.name ++ "' not loaded") ∧
    Airfoil.thickness interp a
      = Except.error ("Airfoil '" ++ a.name ++ "' not loaded") ∧
    Airfoil.splitUpperLower a
      = Except.error ("Airfoil '" ++ a.name ++ "' isn't loaded. Cannot split.") := by
  refine ⟨?_, ?_, ?_, ?_, ?_⟩
  · simp [Airfoil.upper, h]
  · simp [Airfoil.lower, h]
  · simp [Airfoil.camber, h]
  · simp [Airfoil.thickness, h]
  · simp [Airfoil.splitUpperLower, h]

/-- C6 witness at a concrete not-loaded airfoil. -/
theorem spec_c6_not_loaded_access_witness :
    Airfoil.camber (fun _ _ => 0)
        { name := "TestFoil", pathFileName := none,
          x := [1, 1/2, 0, 1/2, 1], y := [0, 1/20, 0, -1/20, 0] }
      = Except.error "Airfoil 'TestFoil' not loaded" := by
  have h := (spec_c6_not_loaded_access (fun _ _ => 0)
    { name := "TestFoil", pathFileName := none,
      x := [1, 1/2, 0, 1/2, 1], y := [0, 1/20, 0, -1/20, 0] }
    (by decide)).2.2.1
  simpa using h

/-- Airfoil2 strak checks: Airfoil2.do_strak raises ValueError when either
source airfoil is not loaded (first two conjuncts); when both are loaded it
succeeds, and a loaded but not normalized source is normalized in place
before blending: the returned source states are the normalize-if-needed
images of the inputs, and the blended result is computed from exactly those
mutated states (third conjunct). -/
theorem airfoil2_do_strak_checks (getY : GetYFn) (nrm : NormalizeFn)
    (self a1 a2 : Airfoil2) (blendBy : ℚ) :
    (a1.isLoadedB = false →
      Airfoil2.do_strak getY nrm self a1 a2 blendBy
        = Except.error (strakNotLoadedMsg a1.name)) ∧
    (a1.isLoadedB = true → a2.isLoadedB = false →
      Airfoil2.do_strak getY nrm self a1 a2 blendBy
        = Except.error (strakNotLoadedMsg a2.name)) ∧
    (a1.isLoadedB = true → a2.isLoadedB = true →
      Airfoil2.do_strak getY nrm self a1 a2 blendBy
        = Except.ok
            (Airfoil2.strakCore getY self (normalizeIfNeeded nrm a1)
              (normalizeIfNeeded nrm a2) blendBy,
             normalizeIfNeeded nrm a1, normalizeIfNeeded nrm a2) ∧
      (a1.isNormalizedB = false →
        normalizeIfNeeded nrm a1 = a1.normalize nrm) ∧
      (a2.isNormalizedB = false →
        normalizeIfNeeded nrm a2 = a2.normalize nrm)) := by
  refine ⟨?_, ?_, ?_⟩
  · intro h1
    simp [Airfoil2.do_strak, h1]
  · intro h1 h2
    simp [Airfoil2.do_strak, h1, h2]
  · intro h1 h2
    refine ⟨by simp [Airfoil2.do_strak, h1, h2], ?_, ?_⟩
    · intro hn1
      simp [normalizeIfNeeded, hn1]
    · intro hn2
      simp [normalizeIfNeeded, hn2]

/-- C4: on an airfoil that is not normalized and whose implicit
normalization attempt fails (isNormalized still false afterwards),
with_TEGap aborts the gap change and returns the original coordinates
unmodified, for every target gap and blending distance.  The normalization
routine is any function satisfying the spec-modelled NormalizeSpec
contract. -/
theorem spec_c4_tegap_abort (expFn : ℚ → ℚ) (nrm : NormalizeFn)
    (hs : NormalizeSpec nrm) (a : Airfoil2) (newGap xBlend : ℚ)
    (h1 : a.isNormalizedB = false)
    (h2 : (a.normalize nrm).isNormalizedB = false) :
    a.with_TEGap expFn nrm newGap xBlend = (a.x, a.y) := by
  have hnone : nrm a.x a.y = none := by
    cases hn : nrm a.x a.y with
    | none => rfl
    | some p =>
      obtain ⟨nx, ny⟩ := p
      have hnorm := hs a.x a.y nx ny hn
      have : (a.normalize nrm).isNormalizedB = true := by
        simp [Airfoil2.normalize, hn, Airfoil2.set_xy, Airfoil2.isNormalizedB]
        exact hnorm
      rw [h2] at this
      exact absurd this (by simp)
  have hid : a.normalize nrm = a := by
    simp [Airfoil2.normalize, hnone]
  simp [Airfoil2.with_TEGap, h1, hid, h2]

/-- C4 witness at a concrete unnormalizable airfoil. -/
theorem spec_c4_tegap_abort_witness :
    Airfoil2.with_TEGap (fun _ => 1) (fun _ _ => none)
        { name := "raw", pathFileName := none, x := [2, 0, 2], y := [1, 0, -1],
          mIsModified := false, mIsStrakAirfoil := false }
        (1/100) (4/5)
      = ([2, 0, 2], [1, 0, -1]) :=
  spec_c4_tegap_abort (fun _ => 1) (fun _ _ => none)
    (fun _ _ _ _ h => Option.noConfusion h)
    { name := "raw", pathFileName := none, x := [2, 0, 2], y := [1, 0, -1],
      mIsModified := false, mIsStrakAirfoil := false }
    (1/100) (4/5) (by decide) (by decide)

theorem side_reassembly (a : Airfoil2) :
    a.upperSide.x.reverse ++ a.lowerSide.x.tail = a.x ∧
    a.upperSide.y.reverse ++ a.lowerSide.y.tail = a.y := by
  constructor
  · simp [Airfoil2.upperSide, Airfoil2.lowerSide, List.tail_drop,
      List.reverse_reverse, List.take_append_drop]
  · simp [Airfoil2.upperSide, Airfoil2.lowerSide, List.tail_drop,
      List.reverse_reverse, List.take_append_drop]

theorem upperSide_y_length (a : Airfoil2) (h : a.x.length = a.y.length) :
    a.upperSide.y.length = a.upperSide.x.length := by
  simp [Airfoil2.upperSide, h]

theorem lowerSide_y_length (a : Airfoil2) (h : a.x.length = a.y.length) :
    a.lowerSide.y.length = a.lowerSide.x.length := by
  simp [Airfoil2.lowerSide, h]

/-- Airfoil2 blend endpoints: Airfoil2.do_strak with blend factor 0
reproduces airfoil1 shape; with blend factor 1 it reproduces airfoil2 shape
- on the respective source grid and exactly (the interpolated values of the
other airfoil carry weight 0, so this holds for every interpolation routine
getY).  The first two conjuncts state it at side level, the last two at the
level of the reassembled polyline of the blended airfoil. -/
theorem airfoil2_blend_endpoints (getY : GetYFn) (nrm : NormalizeFn)
    (self a1 a2 : Airfoil2)
    (hl1 : a1.isLoadedB = true) (hl2 : a2.isLoadedB = true)
    (hn1 : a1.isNormalizedB = true) (hn2 : a2.isNormalizedB = true)
    (hxy1 : a1.x.length = a1.y.length) (hxy2 : a2.x.length = a2.y.length) :
    strakSides getY a1 a2 0 = (a1.upperSide, a1.lowerSide) ∧
    strakSides getY a1 a2 1 = (a2.upperSide, a2.lowerSide) ∧
    (Airfoil2.do_strak getY nrm self a1 a2 0).map (fun r => (r.1.x, r.1.y))
      = Except.ok (a1.x, a1.y) ∧
    (Airfoil2.do_strak getY nrm self a1 a2 1).map (fun r => (r.1.x, r.1.y))
      = Except.ok (a2.x, a2.y) := by
  have hu1 := upperSide_y_length a1 hxy1
  have hl1' := lowerSide_y_length a1 hxy1
  have hu2 := upperSide_y_length a2 hxy2
  have hl2' := lowerSide_y_length a2 hxy2
  have hs0 : strakSides getY a1 a2 0 = (a1.upperSide, a1.lowerSide) := by
    simp only [strakSides, if_pos (by norm_num : (0:ℚ) ≤ 1/2)]
    refine Prod.ext ?_ ?_
    · show Side.mk a1.upperSide.x _ = a1.upperSide
      rw [blendLists_zero _ _ (by simp [hu1])]
    · show Side.mk a1.lowerSide.x _ = a1.lowerSide
      rw [blendLists_zero _ _ (by simp [hl1'])]
  have hs1 : strakSides getY a1 a2 1 = (a2.upperSide, a2.lowerSide) := by
    simp only [strakSides, if_neg (by norm_num : ¬ (1:ℚ) ≤ 1/2)]
    refine Prod.ext ?_ ?_
    · show Side.mk a2.upperSide.x _ = a2.upperSide
      rw [blendLists_one _ _ (by simp [hu2])]
    · show Side.mk a2.lowerSide.x _ = a2.lowerSide
      rw [blendLists_one _ _ (by simp [hl2'])]
  refine ⟨hs0, hs1, ?_, ?_⟩
  · have hok : Airfoil2.do_strak getY nrm self a1 a2 0
        = Except.ok
            (Airfoil2.strakCore getY self a1 a2 0, a1, a2) := by
      simp [Airfoil2.do_strak, hl1, hl2, normalizeIfNeeded, hn1, hn2]
    rw [hok]
    rw [show Airfoil2.strakCore getY self a1 a2 0
        = (self.set_xy ((strakSides getY a1 a2 0).1.x.reverse
            ++ (strakSides getY a1 a2 0).2.x.tail)
            ((strakSides getY a1 a2 0).1.y.reverse
            ++ (strakSides getY a1 a2 0).2.y.tail)).set_isStrakAirfoil true
      from rfl, hs0]
    simp [Except.map, Airfoil2.set_xy, Airfoil2.set_isStrakAirfoil,
      (side_reassembly a1).1, (side_reassembly a1).2]
  · have hok : Airfoil2.do_strak getY nrm self a1 a2 1
        = Except.ok
            (Airfoil2.strakCore getY self a1 a2 1, a1, a2) := by
      simp [Airfoil2.do_strak, hl1, hl2, normalizeIfNeeded, hn1, hn2]
    rw [hok]
    rw [show Airfoil2.strakCore getY self a1 a2 1
        = (self.set_xy ((strakSides getY a1 a2 1).1.x.reverse
            ++ (strakSides getY a1 a2 1).2.x.tail)
            ((strakSides getY a1 a2 1).1.y.reverse
            ++ (strakSides getY a1 a2 1).2.y.tail)).set_isStrakAirfoil true
      from rfl, hs1]
    simp [Except.map, Airfoil2.set_xy, Airfoil2.set_isStrakAirfoil,
      (side_reassembly a2).1, (side_reassembly a2).2]

theorem blendLists_getD (b : ℚ) (y1 y2 : List ℚ) (i : ℕ)
    (h1 : i < y1.length) (h2 : i < y2.length) :
    (blendLists b y1 y2).getD i 0
      = (1 - b) * y1.getD i 0 + b * y2.getD i 0 := by
  rw [blendLists, getD_zipWith _ _ _ i 0 h1 h2]

/-- Airfoil2 blend step: in Airfoil2.do_strak the source whose weight is at
least one half (airfoil1 when blendBy is at most 1/2, otherwise airfoil2)
supplies the shared upper and lower x grids unchanged; the other airfoil y
values come from the interpolation routine getY applied on that grid, and
the output y on each side equals (1 - blendBy) * y1 + blendBy * y2
pointwise on that grid. -/
theorem airfoil2_grid_pointwise_blend (getY : GetYFn) (a1 a2 : Airfoil2)
    (b : ℚ)
    (hxy1 : a1.x.length = a1.y.length) (hxy2 : a2.x.length = a2.y.length) :
    (b ≤ 1/2 →
      (strakSides getY a1 a2 b).1.x = a1.upperSide.x ∧
      (strakSides getY a1 a2 b).2.x = a1.lowerSide.x ∧
      (∀ i, i < a1.upperSide.x.length →
        (strakSides getY a1 a2 b).1.y.getD i 0
          = (1 - b) * a1.upperSide.y.getD i 0
            + b * getY a2 SideTag.upper (a1.upperSide.x.getD i 0)) ∧
      (∀ i, i < a1.lowerSide.x.length →
        (strakSides getY a1 a2 b).2.y.getD i 0
          = (1 - b) * a1.lowerSide.y.getD i 0
            + b * getY a2 SideTag.lower (a1.lowerSide.x.getD i 0))) ∧
    (1/2 < b →
      (strakSides getY a1 a2 b).1.x = a2.upperSide.x ∧
      (strakSides getY a1 a2 b).2.x = a2.lowerSide.x ∧
      (∀ i, i < a2.upperSide.x.length →
        (strakSides getY a1 a2 b).1.y.getD i 0
          = (1 - b) * getY a1 SideTag.upper (a2.upperSide.x.getD i 0)
            + b * a2.upperSide.y.getD i 0) ∧
      (∀ i, i < a2.lowerSide.x.length →
        (strakSides getY a1 a2 b).2.y.getD i 0
          = (1 - b) * getY a1 SideTag.lower (a2.lowerSide.x.getD i 0)
            + b * a2.lowerSide.y.getD i 0)) := by
  constructor
  · intro hb
    simp only [strakSides, if_pos hb]
    refine ⟨trivial, trivial, ?_, ?_⟩
    · intro i hi
      have hiy : i < a1.upperSide.y.length := by
        rw [upperSide_y_length a1 hxy1]; exact hi
      have him : i < (a1.upperSide.x.map (getY a2 SideTag.upper)).length := by
        simpa using hi
      rw [blendLists_getD b _ _ i hiy him,
        getD_map_fn (getY a2 SideTag.upper) _ i 0 hi]
    · intro i hi
      have hiy : i < a1.lowerSide.y.length := by
        rw [lowerSide_y_length a1 hxy1]; exact hi
      have him : i < (a1.lowerSide.x.map (getY a2 SideTag.lower)).length := by
        simpa using hi
      rw [blendLists_getD b _ _ i hiy him,
        getD_map_fn (getY a2 SideTag.lower) _ i 0 hi]
  · intro hb
    simp only [strakSides, if_neg (not_le.mpr hb)]
    refine ⟨trivial, trivial, ?_, ?_⟩
    · intro i hi
      have hiy : i < a2.upperSide.y.length := by
        rw [upperSide_y_length a2 hxy2]; exact hi
      have him : i < (a2.upperSide.x.map (getY a1 SideTag.upper)).length := by
        simpa using hi
      rw [blendLists_getD b _ _ i him hiy,
        getD_map_fn (getY a1 SideTag.upper) _ i 0 hi]
    · intro i hi
      have hiy : i < a2.lowerSide.y.length := by
        rw [lowerSide_y_length a2 hxy2]; exact hi
      have him : i < (a2.lowerSide.x.map (getY a1 SideTag.lower)).length := by
        simpa using hi
      rw [blendLists_getD b _ _ i him hiy,
        getD_map_fn (getY a1 SideTag.lower) _ i 0 hi]

theorem teGapY_getD (expFn : ℚ → ℚ) (iLe : ℕ) (dgap xbc : ℚ)
    (x y : List ℚ) (i : ℕ) (h : i < x.length) :
    (teGapY expFn iLe dgap xbc x y).getD i 0
      = if i ≤ iLe then
          y.getD i 0 + 1/2 * dgap * x.getD i 0
            * tfacAt expFn xbc x.length i (x.getD i 0)
        else
          y.getD i 0 - 1/2 * dgap * x.getD i 0
            * tfacAt expFn xbc x.length i (x.getD i 0) := by
  unfold teGapY
  rw [getD_range_map _ _ _ _ h]

theorem tfacAt_te (expFn : ℚ → ℚ) (hexp : expFn 0 = 1) (xbc : ℚ)
    (n i : ℕ) (hi : i = 0 ∨ i = n - 1) : tfacAt expFn xbc n i 1 = 1 := by
  unfold tfacAt
  split
  · simp [hi]
  · rw [show ((1:ℚ) - 1) * (1 / xbc - 1) = 0 by ring,
      show min (0:ℚ) 15 = 0 by norm_num, neg_zero, hexp]

theorem teGapY_length (expFn : ℚ → ℚ) (iLe : ℕ) (dgap xbc : ℚ)
    (x y : List ℚ) : (teGapY expFn iLe dgap xbc x y).length = x.length := by
  simp [teGapY]

/-- C1: on a normalized airfoil, with_TEGap returns coordinate arrays whose
first-minus-last y difference is exactly the requested gap, and whose x
array is the airfoil x array unchanged - for every target gap, every
blending distance, every normalization routine, and every taper exponential
with exp 0 = 1 (which holds for the floating-point np.exp as well). -/
theorem spec_c1_tegap_exact (expFn : ℚ → ℚ) (nrm : NormalizeFn)
    (a : Airfoil2) (newGap xBlend : ℚ)
    (hexp : expFn 0 = 1)
    (hn : a.isNormalizedB = true)
    (hxy : a.x.length = a.y.length) :
    (a.with_TEGap expFn nrm newGap xBlend).1 = a.x ∧
    (a.with_TEGap expFn nrm newGap xBlend).2.headD 0
      - (a.with_TEGap expFn nrm newGap xBlend).2.getLastD 0 = newGap := by
  have hn' := hn
  unfold Airfoil2.isNormalizedB isNormalizedXY at hn'
  by_cases he : a.x.isEmpty
  · rw [if_pos he] at hn'
    exact absurd hn' (by simp)
  rw [if_neg he] at hn'
  simp only [Bool.and_eq_true, decide_eq_true_eq] at hn'
  obtain ⟨⟨⟨⟨hx0, hxl⟩, hy0⟩, hxle⟩, hyle⟩ := hn'
  have hne : a.x ≠ [] := by
    intro h0
    rw [h0] at he
    exact he rfl
  have hnpos : 0 < a.x.length := List.length_pos.mpr hne
  have hile_lt : a.iLe < a.x.length := argminIdx_lt_length a.x hne
  have hlast1 : a.x.getD (a.x.length - 1) 0 = 1 := by
    rw [getD_last_getLastD a.x 0 hne]
    exact hxl
  have hile_ne : a.iLe ≠ a.x.length - 1 := by
    intro h
    rw [Airfoil2.iLe] at h
    rw [← h] at hlast1
    rw [hxle] at hlast1
    norm_num at hlast1
  have hile_lt1 : a.iLe < a.x.length - 1 := by omega
  have hyne : a.y ≠ [] := by
    intro h0
    apply hne
    have hxz : a.x.length = 0 := by rw [hxy, h0]; rfl
    exact List.length_eq_zero.mp hxz
  have hred : a.with_TEGap expFn nrm newGap xBlend
      = (a.x, teGapY expFn a.iLe
          (newGap - (a.y.headD 0 - a.y.getLastD 0)) (clamp01 xBlend)
          a.x a.y) := by
    unfold Airfoil2.with_TEGap
    simp [hn]
  refine ⟨by rw [hred], ?_⟩
  rw [hred]
  have htne : teGapY expFn a.iLe
      (newGap - (a.y.headD 0 - a.y.getLastD 0)) (clamp01 xBlend)
      a.x a.y ≠ [] := by
    intro h0
    have := teGapY_length expFn a.iLe
      (newGap - (a.y.headD 0 - a.y.getLastD 0)) (clamp01 xBlend) a.x a.y
    rw [h0] at this
    simp at this
    omega
  have hx00 : a.x.getD 0 0 = 1 := by
    rw [getD_zero_headD]
    exact hx0
  have hhead : (teGapY expFn a.iLe
      (newGap - (a.y.headD 0 - a.y.getLastD 0)) (clamp01 xBlend)
      a.x a.y).headD 0
      = a.y.getD 0 0 + 1/2 * (newGap - (a.y.headD 0 - a.y.getLastD 0)) := by
    rw [← getD_zero_headD, teGapY_getD _ _ _ _ _ _ 0 hnpos,
      if_pos (Nat.zero_le _), hx00,
      tfacAt_te expFn hexp (clamp01 xBlend) a.x.length 0 (Or.inl rfl)]
    ring
  have hlastidx : a.x.length - 1 < a.x.length := by omega
  have hlastv : (teGapY expFn a.iLe
      (newGap - (a.y.headD 0 - a.y.getLastD 0)) (clamp01 xBlend)
      a.x a.y).getLastD 0
      = a.y.getD (a.x.length - 1) 0
        - 1/2 * (newGap - (a.y.headD 0 - a.y.getLastD 0)) := by
    rw [← getD_last_getLastD _ 0 htne, teGapY_length]
    rw [teGapY_getD _ _ _ _ _ _ (a.x.length - 1) hlastidx,
      if_neg (by omega), hlast1,
      tfacAt_te expFn hexp (clamp01 xBlend) a.x.length (a.x.length - 1)
        (Or.inr rfl)]
    ring
  rw [hhead, hlastv]
  rw [getD_zero_headD]
  rw [show a.y.getD (a.x.length - 1) 0 = a.y.getLastD 0 by
    rw [hxy]
    exact getD_last_getLastD a.y 0 hyne]
  ring

/-- C1 witness at a concrete normalized airfoil, target gap 0.03 and
blending distance 0.8. -/
theorem spec_c1_tegap_exact_witness :
    (wFoil1.with_TEGap (fun _ => 1) (fun _ _ => none) (3/100) (4/5)).1
      = wFoil1.x ∧
    (wFoil1.with_TEGap (fun _ => 1) (fun _ _ => none) (3/100) (4/5)).2.headD 0
      - (wFoil1.with_TEGap (fun _ => 1) (fun _ _ => none)
          (3/100) (4/5)).2.getLastD 0 = 3/100 :=
  spec_c1_tegap_exact (fun _ => 1) (fun _ _ => none) wFoil1 (3/100) (4/5)
    rfl (by decide) (by decide)


theorem npAdd_ok (l1 l2 : List ℚ) (h : l1.length = l2.length) :
    npAdd l1 l2 = Except.ok (List.zipWith (fun p q => p + q) l1 l2) := by
  simp [npAdd, h]

theorem npAdd_error (l1 l2 : List ℚ) (h : l1.length ≠ l2.length)
    (h1 : l1.length ≠ 1) (h2 : l2.length ≠ 1) :
    npAdd l1 l2 = Except.error broadcastMsg := by
  simp [npAdd, h, h1, h2]

theorem npScale_zip (b : ℚ) (l1 l2 : List ℚ) :
    List.zipWith (fun p q => p + q) (npScale (1 - b) l1) (npScale b l2)
      = blendLists b l1 l2 := by
  simp [npScale, blendLists, List.zipWith_map]

theorem upperOf_y_length (a : Airfoil) (h : a.x.length = a.y.length) :
    a.upperOf.y.length = a.upperOf.x.length := by
  simp [Airfoil.upperOf, h]

theorem lowerOf_y_length (a : Airfoil) (h : a.x.length = a.y.length) :
    a.lowerOf.y.length = a.lowerOf.x.length := by
  simp [Airfoil.lowerOf, h]

theorem side_reassembly_leg (a : Airfoil) :
    a.upperOf.x.reverse ++ a.lowerOf.x.tail = a.x ∧
    a.upperOf.y.reverse ++ a.lowerOf.y.tail = a.y := by
  constructor
  · simp [Airfoil.upperOf, Airfoil.lowerOf, List.tail_drop,
      List.reverse_reverse, List.take_append_drop]
  · simp [Airfoil.upperOf, Airfoil.lowerOf, List.tail_drop,
      List.reverse_reverse, List.take_append_drop]

theorem strakSidesLegacy_le (interp : Side → ℚ → ℚ) (a1 a2 : Airfoil)
    (b : ℚ) (hb : b ≤ 1/2) (hxy : a1.x.length = a1.y.length) :
    strakSidesLegacy interp a1 a2 b
      = Except.ok
          (⟨a1.upperOf.x,
            blendLists b a1.upperOf.y (a1.upperOf.x.map (interp a2.upperOf))⟩,
           ⟨a1.lowerOf.x,
            blendLists b a1.lowerOf.y (a1.lowerOf.x.map (interp a2.lowerOf))⟩) := by
  have hu : (npScale (1 - b) a1.upperOf.y).length
      = (npScale b (a1.upperOf.x.map (interp a2.upperOf))).length := by
    simp [npScale, upperOf_y_length a1 hxy]
  have hl : (npScale (1 - b) a1.lowerOf.y).length
      = (npScale b (a1.lowerOf.x.map (interp a2.lowerOf))).length := by
    simp [npScale, lowerOf_y_length a1 hxy]
  simp only [strakSidesLegacy, if_pos hb]
  rw [npAdd_ok _ _ hu, npAdd_ok _ _ hl, npScale_zip, npScale_zip]

theorem strakSidesLegacy_gt (interp : Side → ℚ → ℚ) (a1 a2 : Airfoil)
    (b : ℚ) (hb : 1/2 < b)
    (hu : a1.upperOf.y.length = a2.upperOf.x.length)
    (hl : a1.lowerOf.y.length = a2.lowerOf.x.length) :
    strakSidesLegacy interp a1 a2 b
      = Except.ok
          (⟨a2.upperOf.x,
            blendLists b a1.upperOf.y (a2.upperOf.x.map (interp a2.upperOf))⟩,
           ⟨a2.lowerOf.x,
            blendLists b a1.lowerOf.y (a2.lowerOf.x.map (interp a2.lowerOf))⟩) := by
  have hu' : (npScale (1 - b) a1.upperOf.y).length
      = (npScale b (a2.upperOf.x.map (interp a2.upperOf))).length := by
    simp [npScale, hu]
  have hl' : (npScale (1 - b) a1.lowerOf.y).length
      = (npScale b (a2.lowerOf.x.map (interp a2.lowerOf))).length := by
    simp [npScale, hl]
  simp only [strakSidesLegacy, if_neg (not_le.mpr hb)]
  rw [npAdd_ok _ _ hu', npAdd_ok _ _ hl', npScale_zip, npScale_zip]

theorem strakSidesLegacy_gt_error (interp : Side → ℚ → ℚ) (a1 a2 : Airfoil)
    (b : ℚ) (hb : 1/2 < b)
    (hu : a1.upperOf.y.length ≠ a2.upperOf.x.length)
    (h1 : a1.upperOf.y.length ≠ 1) (h2 : a2.upperOf.x.length ≠ 1) :
    strakSidesLegacy interp a1 a2 b = Except.error broadcastMsg := by
  have he : npAdd (npScale (1 - b) a1.upperOf.y)
      (npScale b (a2.upperOf.x.map (interp a2.upperOf)))
      = Except.error broadcastMsg := by
    apply npAdd_error <;> simp [npScale, hu, h1, h2]
  simp only [strakSidesLegacy, if_neg (not_le.mpr hb)]
  rw [he]

theorem loadLinesLegacy_keeps_all (ls : List (Option (ℚ × ℚ))) :
    loadLinesLegacy ls = ls.filterMap id := by
  induction ls with
  | nil => rfl
  | cons o rest ih =>
    cases o with
    | none => simpa [loadLinesLegacy, List.filterMap_cons] using ih
    | some p => simpa [loadLinesLegacy, List.filterMap_cons] using ih

/-- C8 (corrected): the Airfoil2 loader skips every duplicate consecutive
parsed (x, y) pair without raising (first conjunct: such a pair contributes
nothing; loadCoords is total) so its resulting coordinate list has no two
consecutive equal points (second conjunct); the legacy Airfoil._loadLines
however has no duplicate filter - it keeps every parsed pair (third
conjunct), so duplicate consecutive points survive in its arrays. -/
theorem spec_c8_load_duplicates_corrected :
    (∀ (p : ℚ × ℚ) (rest : List (Option (ℚ × ℚ))),
      loadLinesAux p (some p :: rest) = loadLinesAux p rest) ∧
    (∀ dataLines : List (Option (ℚ × ℚ)),
      List.Chain' (fun a b => a ≠ b) (loadCoords dataLines)) ∧
    (∀ dataLines : List (Option (ℚ × ℚ)),
      loadLinesLegacy dataLines = dataLines.filterMap id) := by
  refine ⟨?_, ?_, loadLinesLegacy_keeps_all⟩
  · intro p rest
    simp [loadLinesAux]
  · intro dataLines
    exact loadLinesAux_chain' dataLines _

/-- C8 counterexample: the claim says loading skips every duplicate
consecutive pair so that the resulting arrays have no two consecutive equal
points; the legacy Airfoil._loadLines keeps both copies of a duplicated
coordinate line, and the resulting list has two consecutive equal points. -/
theorem spec_c8_counterexample :
    loadLinesLegacy [some ((1 : ℚ), (2 : ℚ)), some (1, 2)]
      = [(1, 2), (1, 2)] ∧
    ¬ List.Chain' (fun a b => a ≠ b)
        (loadLinesLegacy [some ((1 : ℚ), (2 : ℚ)), some (1, 2)]) := by
  refine ⟨rfl, ?_⟩
  intro h
  rw [show loadLinesLegacy [some ((1 : ℚ), (2 : ℚ)), some (1, 2)]
      = [(1, 2), (1, 2)] from rfl] at h
  rw [List.chain'_pair] at h
  exact h rfl

/-- C5 (corrected): Airfoil2.do_strak raises ValueError when either source
is not loaded and, when both are loaded, replaces an unnormalized source by
its in-place normalization before blending (first three conjuncts, as for
the Airfoil2-only statement).  The legacy Airfoil_Straked.do_strak also
fails on an unloaded source - its upper/lower properties are None, so the
attribute access raises AttributeError (fourth conjunct) - but it performs
no normalization at all: whenever it succeeds the sources come back exactly
as they were passed in, normalized or not (fifth conjunct). -/
theorem spec_c5_do_strak_corrected (getY : GetYFn) (nrm : NormalizeFn)
    (self a1 a2 : Airfoil2) (blendBy : ℚ)
    (interp : Side → ℚ → ℚ) (lself la1 la2 : Airfoil) (lb : ℚ) :
    (a1.isLoadedB = false →
      Airfoil2.do_strak getY nrm self a1 a2 blendBy
        = Except.error (strakNotLoadedMsg a1.name)) ∧
    (a1.isLoadedB = true → a2.isLoadedB = false →
      Airfoil2.do_strak getY nrm self a1 a2 blendBy
        = Except.error (strakNotLoadedMsg a2.name)) ∧
    (a1.isLoadedB = true → a2.isLoadedB = true →
      Airfoil2.do_strak getY nrm self a1 a2 blendBy
        = Except.ok
            (Airfoil2.strakCore getY self (normalizeIfNeeded nrm a1)
              (normalizeIfNeeded nrm a2) blendBy,
             normalizeIfNeeded nrm a1, normalizeIfNeeded nrm a2) ∧
      (a1.isNormalizedB = false →
        normalizeIfNeeded nrm a1 = a1.normalize nrm) ∧
      (a2.isNormalizedB = false →
        normalizeIfNeeded nrm a2 = a2.normalize nrm)) ∧
    (la1.isLoadedB = false ∨ la2.isLoadedB = false →
      Airfoil.do_strak interp lself la1 la2 lb
        = Except.error attributeErrorMsg) ∧
    (∀ r, Airfoil.do_strak interp lself la1 la2 lb = Except.ok r →
      r.2.1 = la1 ∧ r.2.2 = la2) := by
  refine ⟨(airfoil2_do_strak_checks getY nrm self a1 a2 blendBy).1,
    (airfoil2_do_strak_checks getY nrm self a1 a2 blendBy).2.1,
    (airfoil2_do_strak_checks getY nrm self a1 a2 blendBy).2.2, ?_, ?_⟩
  · intro h
    have hcond : (la1.isLoadedB && la2.isLoadedB) = false := by
      rcases h with h | h <;> simp [h]
    simp [Airfoil.do_strak, hcond]
  · intro r hr
    unfold Airfoil.do_strak at hr
    by_cases hcond : (la1.isLoadedB && la2.isLoadedB) = true
    · rw [if_pos hcond] at hr
      cases hs : strakSidesLegacy interp la1 la2 lb with
      | error e => rw [hs] at hr; cases hr
      | ok s =>
        rw [hs] at hr
        cases hr
        exact ⟨rfl, rfl⟩
    · rw [if_neg hcond] at hr
      cases hr

/-- C5 counterexample: the claim says a loaded but unnormalized source is
normalized in place (its coordinates mutated) before blending; the legacy
Airfoil_Straked.do_strak succeeds on the loaded, unnormalized LU1 and
returns both sources exactly as passed in - LU1 is still unnormalized, no
mutation happened. -/
theorem spec_c5_counterexample :
    LU1.isLoadedB = true ∧ LU1.isNormalizedB = false ∧
    LC1.isLoadedB = true ∧
    (Airfoil.do_strak (fun _ _ => 0) legSelf LU1 LC1 0).map
        (fun r => (r.2.1, r.2.2))
      = Except.ok (LU1, LC1) := by
  refine ⟨by decide, by decide, by decide, ?_⟩
  have hs := strakSidesLegacy_le (fun _ _ => 0) LU1 LC1 0
    (by norm_num) (by decide)
  rw [show Airfoil.do_strak (fun _ _ => 0) legSelf LU1 LC1 0
      = (if LU1.isLoadedB && LC1.isLoadedB then
          match strakSidesLegacy (fun _ _ => 0) LU1 LC1 0 with
          | Except.error e => Except.error e
          | Except.ok s =>
            Except.ok ({ legSelf with
                x := s.1.x.reverse ++ s.2.x.tail,
                y := s.1.y.reverse ++ s.2.y.tail }, LU1, LC1)
        else Except.error attributeErrorMsg) from rfl,
    if_pos (by decide), hs]
  rfl

/-- C2 (corrected): for Airfoil2.do_strak, blend factor 0 reproduces
airfoil1 and blend factor 1 reproduces airfoil2, on the respective source
grid and exactly, for every resampling routine (first conjunct, at side and
polyline level).  The legacy Airfoil_Straked.do_strak reproduces airfoil1 at
blend factor 0 (second conjunct); but at blend factor 1 it adds the scaled
RAW airfoil1 side arrays to arrays on airfoil2's grid, so whenever the two
upper sides have different point counts (neither being 1) numpy raises the
broadcast ValueError instead of reproducing airfoil2 (third conjunct). -/
theorem spec_c2_blend_endpoints_corrected (getY : GetYFn)
    (nrm : NormalizeFn) (self a1 a2 : Airfoil2)
    (interp : Side → ℚ → ℚ) (lself la1 la2 : Airfoil) :
    (a1.isLoadedB = true → a2.isLoadedB = true →
     a1.isNormalizedB = true → a2.isNormalizedB = true →
     a1.x.length = a1.y.length → a2.x.length = a2.y.length →
      strakSides getY a1 a2 0 = (a1.upperSide, a1.lowerSide) ∧
      strakSides getY a1 a2 1 = (a2.upperSide, a2.lowerSide) ∧
      (Airfoil2.do_strak getY nrm self a1 a2 0).map
          (fun r => (r.1.x, r.1.y)) = Except.ok (a1.x, a1.y) ∧
      (Airfoil2.do_strak getY nrm self a1 a2 1).map
          (fun r => (r.1.x, r.1.y)) = Except.ok (a2.x, a2.y)) ∧
    (la1.isLoadedB = true → la2.isLoadedB = true →
     la1.x.length = la1.y.length →
      (Airfoil.do_strak interp lself la1 la2 0).map
          (fun r => (r.1.x, r.1.y, r.2.1, r.2.2))
        = Except.ok (la1.x, la1.y, la1, la2)) ∧
    (la1.isLoadedB = true → la2.isLoadedB = true →
     la1.upperOf.y.length ≠ la2.upperOf.x.length →
     la1.upperOf.y.length ≠ 1 → la2.upperOf.x.length ≠ 1 →
      Airfoil.do_strak interp lself la1 la2 1
        = Except.error broadcastMsg) := by
  refine ⟨?_, ?_, ?_⟩
  · intro h1 h2 h3 h4 h5 h6
    exact airfoil2_blend_endpoints getY nrm self a1 a2 h1 h2 h3 h4 h5 h6
  · intro hl1 hl2 hxy
    have hs := strakSidesLegacy_le interp la1 la2 0 (by norm_num) hxy
    have hbu : blendLists 0 la1.upperOf.y
        (la1.upperOf.x.map (interp la2.upperOf)) = la1.upperOf.y :=
      blendLists_zero _ _ (by simp [upperOf_y_length la1 hxy])
    have hbl : blendLists 0 la1.lowerOf.y
        (la1.lowerOf.x.map (interp la2.lowerOf)) = la1.lowerOf.y :=
      blendLists_zero _ _ (by simp [lowerOf_y_length la1 hxy])
    rw [hbu, hbl] at hs
    have hcond : (la1.isLoadedB && la2.isLoadedB) = true := by
      simp [hl1, hl2]
    simp [Airfoil.do_strak, hcond, hs, Except.map,
      (side_reassembly_leg la1).1, (side_reassembly_leg la1).2]
  · intro hl1 hl2 hne h1 h2
    have hs := strakSidesLegacy_gt_error interp la1 la2 1
      (by norm_num) hne h1 h2
    have hcond : (la1.isLoadedB && la2.isLoadedB) = true := by
      simp [hl1, hl2]
    simp [Airfoil.do_strak, hcond, hs]

/-- C2 counterexample: LC1 and LC2 are loaded and normalized sources with
upper sides of 6 and 7 points; the claim says blending them with factor 1
produces airfoil2's y values, but the legacy Airfoil_Straked.do_strak
raises the numpy broadcast ValueError instead. -/
theorem spec_c2_counterexample :
    LC1.isLoadedB = true ∧ LC2.isLoadedB = true ∧
    LC1.isNormalizedB = true ∧ LC2.isNormalizedB = true ∧
    Airfoil.do_strak (fun _ _ => 0) legSelf LC1 LC2 1
      = Except.error broadcastMsg := by
  refine ⟨by decide, by decide, by decide, by decide, ?_⟩
  have hs := strakSidesLegacy_gt_error (fun _ _ => 0) LC1 LC2 1
    (by norm_num) (by decide) (by decide) (by decide)
  have hcond : (LC1.isLoadedB && LC2.isLoadedB) = true := by decide
  simp [Airfoil.do_strak, hcond, hs]

/-- C3 (corrected): for Airfoil2.do_strak (first conjunct) the source whose
weight is at least one half supplies both x grids unchanged and the output
y is (1 - blendBy) * y1 + blendBy * y2 pointwise with the other airfoil
interpolated onto that grid.  The legacy Airfoil_Straked.do_strak follows
that rule for blendBy at most 1/2 (second conjunct, where airfoil1 owns the
grid); but for blendBy above 1/2 it takes the grids from airfoil2 while
still using airfoil1's RAW side y arrays - airfoil1 is never resampled onto
the shared grid, and it is airfoil2 that is interpolated, onto its own grid
(third conjunct). -/
theorem spec_c3_grid_pointwise_corrected (getY : GetYFn)
    (a1 a2 : Airfoil2) (b : ℚ)
    (interp : Side → ℚ → ℚ) (la1 la2 : Airfoil) (lb : ℚ) :
    (a1.x.length = a1.y.length → a2.x.length = a2.y.length →
      (b ≤ 1/2 →
        (strakSides getY a1 a2 b).1.x = a1.upperSide.x ∧
        (strakSides getY a1 a2 b).2.x = a1.lowerSide.x ∧
        (∀ i, i < a1.upperSide.x.length →
          (strakSides getY a1 a2 b).1.y.getD i 0
            = (1 - b) * a1.upperSide.y.getD i 0
              + b * getY a2 SideTag.upper (a1.upperSide.x.getD i 0)) ∧
        (∀ i, i < a1.lowerSide.x.length →
          (strakSides getY a1 a2 b).2.y.getD i 0
            = (1 - b) * a1.lowerSide.y.getD i 0
              + b * getY a2 SideTag.lower (a1.lowerSide.x.getD i 0))) ∧
      (1/2 < b →
        (strakSides getY a1 a2 b).1.x = a2.upperSide.x ∧
        (strakSides getY a1 a2 b).2.x = a2.lowerSide.x ∧
        (∀ i, i < a2.upperSide.x.length →
          (strakSides getY a1 a2 b).1.y.getD i 0
            = (1 - b) * getY a1 SideTag.upper (a2.upperSide.x.getD i 0)
              + b * a2.upperSide.y.getD i 0) ∧
        (∀ i, i < a2.lowerSide.x.length →
          (strakSides getY a1 a2 b).2.y.getD i 0
            = (1 - b) * getY a1 SideTag.lower (a2.lowerSide.x.getD i 0)
              + b * a2.lowerSide.y.getD i 0))) ∧
    (lb ≤ 1/2 → la1.x.length = la1.y.length →
      strakSidesLegacy interp la1 la2 lb
        = Except.ok
            (⟨la1.upperOf.x, blendLists lb la1.upperOf.y
                (la1.upperOf.x.map (interp la2.upperOf))⟩,
             ⟨la1.lowerOf.x, blendLists lb la1.lowerOf.y
                (la1.lowerOf.x.map (interp la2.lowerOf))⟩)) ∧
    (1/2 < lb →
     la1.upperOf.y.length = la2.upperOf.x.length →
     la1.lowerOf.y.length = la2.lowerOf.x.length →
      strakSidesLegacy interp la1 la2 lb
        = Except.ok
            (⟨la2.upperOf.x, blendLists lb la1.upperOf.y
                (la2.upperOf.x.map (interp la2.upperOf))⟩,
             ⟨la2.lowerOf.x, blendLists lb la1.lowerOf.y
                (la2.lowerOf.x.map (interp la2.lowerOf))⟩)) := by
  refine ⟨?_, ?_, ?_⟩
  · intro hxy1 hxy2
    exact airfoil2_grid_pointwise_blend getY a1 a2 b hxy1 hxy2
  · intro hb hxy
    exact strakSidesLegacy_le interp la1 la2 lb hb hxy
  · intro hb hu hl
    exact strakSidesLegacy_gt interp la1 la2 lb hb hu hl

/-- C3 counterexample: LN1 and LN2 are loaded, normalized sources and the
blend factor is 3/4, so airfoil2 (LN2) owns the grid and the claim requires
output y[i] = (1/4) * (airfoil1 interpolated at grid x[i]) + (3/4) * y2[i].
With the node-exact resampling linInterp, at grid index 2 (x = 1/4) the
legacy Airfoil_Straked blend produces 23/80 - it used airfoil1's RAW y[2] =
2/5 - while the claimed formula gives 1/4 (airfoil1's value AT x = 1/4 is
1/4): the two differ, so the claimed rule is false on the legacy code. -/
theorem spec_c3_counterexample :
    LN1.isLoadedB = true ∧ LN2.isLoadedB = true ∧
    LN1.isNormalizedB = true ∧ LN2.isNormalizedB = true ∧
    (strakSidesLegacy linInterp LN1 LN2 (3/4)).map
        (fun s => (s.1.x, s.1.y.getD 2 0))
      = Except.ok (LN2.upperOf.x, 23/80) ∧
    (1 - 3/4) * linInterp LN1.upperOf (LN2.upperOf.x.getD 2 0)
      + (3/4) * LN2.upperOf.y.getD 2 0 = 1/4 ∧
    (23/80 : ℚ) ≠ 1/4 := by
  refine ⟨by decide, by decide, ?_, ?_, ?_, ?_, by norm_num⟩
  · norm_num [Airfoil.isNormalizedB, isNormalizedXY, argminIdx, argminFrom,
      LN1]
  · norm_num [Airfoil.isNormalizedB, isNormalizedXY, argminIdx, argminFrom,
      LN2]
  · have hs := strakSidesLegacy_gt linInterp LN1 LN2 (3/4)
      (by norm_num)
      (by norm_num [Airfoil.upperOf, Airfoil.le_i, argminIdx, argminFrom,
        LN1, LN2])
      (by norm_num [Airfoil.lowerOf, Airfoil.le_i, argminIdx, argminFrom,
        LN1, LN2])
    rw [hs]
    simp only [Except.map]
    norm_num [blendLists, linInterp, linInterpAux, Airfoil.upperOf,
      Airfoil.le_i, argminIdx, argminFrom, LN1, LN2]
  · norm_num [linInterp, linInterpAux, Airfoil.upperOf, Airfoil.le_i,
      argminIdx, argminFrom, LN1, LN2]

/-- C2 witness: the Airfoil2 conjunct at the two concrete normalized
airfoils (blend 0 reproduces airfoil1's polyline) and the legacy broadcast
conjunct at LC1 and LC2. -/
theorem spec_c2_blend_endpoints_corrected_witness :
    (Airfoil2.do_strak (fun _ _ _ => 0) (fun _ _ => none)
        wSelf wFoil1 wFoil2 0).map (fun r => (r.1.x, r.1.y))
      = Except.ok (wFoil1.x, wFoil1.y) ∧
    Airfoil.do_strak (fun _ _ => 0) legSelf LC1 LC2 1
      = Except.error broadcastMsg :=
  ⟨((spec_c2_blend_endpoints_corrected (fun _ _ _ => 0) (fun _ _ => none)
      wSelf wFoil1 wFoil2 (fun _ _ => 0) legSelf LC1 LC2).1
      (by decide) (by decide) (by decide) (by decide)
      (by decide) (by decide)).2.2.1,
   (spec_c2_blend_endpoints_corrected (fun _ _ _ => 0) (fun _ _ => none)
      wSelf wFoil1 wFoil2 (fun _ _ => 0) legSelf LC1 LC2).2.2
      (by decide) (by decide) (by decide) (by decide) (by decide)⟩

/-- C3 witness: with blend factor 1/4 the Airfoil2 grid comes from airfoil1
and the first blended upper point satisfies the pointwise formula. -/
theorem spec_c3_grid_pointwise_corrected_witness :
    (strakSides (fun _ _ _ => 0) wFoil1 wFoil2 (1/4)).1.x
      = wFoil1.upperSide.x ∧
    (strakSides (fun _ _ _ => 0) wFoil1 wFoil2 (1/4)).1.y.getD 0 0
      = (1 - 1/4) * wFoil1.upperSide.y.getD 0 0
        + (1/4) * (fun (_ : Airfoil2) (_ : SideTag) (_ : ℚ) => (0:ℚ))
            wFoil2 SideTag.upper (wFoil1.upperSide.x.getD 0 0) :=
  ⟨((((spec_c3_grid_pointwise_corrected (fun _ _ _ => 0) wFoil1 wFoil2 (1/4)
      (fun _ _ => 0) legSelf legSelf 0).1 (by decide) (by decide)).1
      (by norm_num))).1,
   ((((spec_c3_grid_pointwise_corrected (fun _ _ _ => 0) wFoil1 wFoil2 (1/4)
      (fun _ _ => 0) legSelf legSelf 0).1 (by decide) (by decide)).1
      (by norm_num))).2.2.1 0 (by decide)⟩

/-- C5 witness: the legacy method fails on an unloaded first source with
the AttributeError. -/
theorem spec_c5_do_strak_corrected_witness :
    Airfoil.do_strak (fun _ _ => 0) legSelf legSelf LC1 0
      = Except.error attributeErrorMsg :=
  (spec_c5_do_strak_corrected (fun _ _ _ => 0) (fun _ _ => none)
    wSelf wFoil1 wFoil2 0 (fun _ _ => 0) legSelf legSelf LC1 0).2.2.2.1
    (Or.inl (by decide))
